import Mathlib

/-
Verification of the gesture-driven display state machine, gesture classifier,
photo-collection operations and layout generator of the Merry_Christmas
repository (an interactive 3D photo tree driven by hand gestures).

Shallow embedding notes:
* `AppState` and `GestureType` mirror `src/types.ts`.
* The reducer passed to `setAppState` inside `handleGestureDetected`
  (src App component) is embedded as `gestureReducer`, together with the
  `setFocusedPhotoIndex` side effects performed in its branches.
* JavaScript's `focusedPhotoIndex` is a `number | null`; since
  `(prevIndex + 1) % photos.length` evaluates to `NaN` in JavaScript when
  `photos.length = 0`, the embedded value type `FocusVal` has an explicit
  `nan` constructor in addition to `null` and natural-number indices.
* Hand-landmark coordinates are embedded as exact rationals; the layout
  generator (which uses trigonometry) is embedded over the reals.
-/

set_option maxHeartbeats 1000000

namespace MerryChristmas

/-- Display states of the application, from `src/types.ts` (`AppState`). -/
inductive AppState
  | TREE
  | SCATTER
  | FOCUS
deriving DecidableEq, Repr

/-- Gesture labels, from `src/types.ts` (`GestureType`). -/
inductive GestureType
  | NONE
  | FIST
  | OPEN
  | PINCH
deriving DecidableEq, Repr

/-- Value of the `focusedPhotoIndex` React state (`number | null` in the
source).  `nan` is the JavaScript value `NaN`, which `(prevIndex + 1) %
photos.length` produces when `photos.length = 0`. -/
inductive FocusVal
  | null
  | idx (v : ℕ)
  | nan
deriving DecidableEq, Repr

/-- The `setFocusedPhotoIndex` updater executed in the PINCH branch of
`handleGestureDetected`:
`(prevIndex) => (prevIndex === null ? 0 : (prevIndex + 1) % photos.length)`.
In JavaScript `(v + 1) % 0 = NaN` and `NaN + 1 = NaN`, `NaN % n = NaN`. -/
def pinchNextFocus (prevIndex : FocusVal) (photoCount : ℕ) : FocusVal :=
  match prevIndex with
  | .null => .idx 0
  | .idx v => if photoCount = 0 then .nan else .idx ((v + 1) % photoCount)
  | .nan => .nan

/-- The state-machine reducer inside `handleGestureDetected` (App component):
the `setAppState((prev) => ...)` updater, paired with the focus-index side
effects its branches perform.  Branches in source order:
1. `gesture === FIST && prev !== TREE` returns `TREE` (focus untouched);
2. `gesture === OPEN && prev !== SCATTER` resets focus to `null`, returns
   `SCATTER`;
3. `gesture === PINCH && prev === SCATTER` advances the focus index and
   returns `FOCUS`;
4. otherwise `prev` is returned and the focus is untouched. -/
def gestureReducer (prev : AppState) (focus : FocusVal) (gesture : GestureType)
    (photoCount : ℕ) : AppState × FocusVal :=
  if gesture = .FIST ∧ prev ≠ .TREE then (.TREE, focus)
  else if gesture = .OPEN ∧ prev ≠ .SCATTER then (.SCATTER, .null)
  else if gesture = .PINCH ∧ prev = .SCATTER then (.FOCUS, pinchNextFocus focus photoCount)
  else (prev, focus)

/-- C1: for every current display state and photo count, the gesture reducer
applied to FIST yields display state TREE (either through the explicit FIST
branch, or through the final no-op branch when the state is already TREE). -/
theorem fist_always_yields_tree (s : AppState) (f : FocusVal) (n : ℕ) :
    (gestureReducer s f .FIST n).1 = .TREE := by
  cases s <;> simp [gestureReducer]

/-- C3 (failing input): PINCH in state SCATTER with zero photos is not a
no-op: the reducer still transitions to FOCUS, setting the focus index to 0
(out of range for an empty collection) when it was null, and to NaN when it
was a number — there is no zero-photo guard in the PINCH branch. -/
theorem pinch_zero_photos_not_noop :
    gestureReducer .SCATTER .null .PINCH 0 = (.FOCUS, .idx 0) ∧
    gestureReducer .SCATTER (.idx 0) .PINCH 0 = (.FOCUS, .nan) := by
  constructor <;> rfl

/-- C4: OPEN from a state other than SCATTER (i.e. TREE or FOCUS) yields
SCATTER and clears the focus index to null; OPEN while already in SCATTER is
a no-op leaving both the state and the focus index unchanged. -/
theorem open_transition (f : FocusVal) (n : ℕ) :
    gestureReducer .TREE f .OPEN n = (.SCATTER, .null) ∧
    gestureReducer .FOCUS f .OPEN n = (.SCATTER, .null) ∧
    gestureReducer .SCATTER f .OPEN n = (.SCATTER, f) := by
  refine ⟨?_, ?_, ?_⟩ <;> rfl

/-- C5: with at least one photo, PINCH from SCATTER transitions to FOCUS and
advances the focus index cyclically (null becomes 0, index v becomes
(v+1) mod n); PINCH in TREE or FOCUS is a no-op; hence a second PINCH right
after a first one (which lands in FOCUS) does not advance the index. -/
theorem pinch_transition (n : ℕ) (hn : 1 ≤ n) :
    (∀ f, (gestureReducer .SCATTER f .PINCH n).1 = .FOCUS) ∧
    (gestureReducer .SCATTER .null .PINCH n).2 = .idx 0 ∧
    (∀ v, (gestureReducer .SCATTER (.idx v) .PINCH n).2 = .idx ((v + 1) % n)) ∧
    (∀ f, gestureReducer .TREE f .PINCH n = (.TREE, f)) ∧
    (∀ f, gestureReducer .FOCUS f .PINCH n = (.FOCUS, f)) ∧
    (∀ f, gestureReducer .FOCUS (gestureReducer .SCATTER f .PINCH n).2 .PINCH n =
      (.FOCUS, (gestureReducer .SCATTER f .PINCH n).2)) := by
  have hne : n ≠ 0 := Nat.one_le_iff_ne_zero.mp hn
  refine ⟨fun f => rfl, rfl, fun v => ?_, fun f => rfl, fun f => rfl, fun f => rfl⟩
  simp [gestureReducer, pinchNextFocus, hne]

/-- C5 witness: with 3 photos, PINCH from SCATTER with null focus gives
FOCUS with index 0; from index 0 it gives index 1; PINCH in TREE and FOCUS
leaves everything unchanged; a repeated PINCH does not advance the index. -/
theorem pinch_transition_witness :
    (1 ≤ 3) ∧
    ((∀ f, (gestureReducer .SCATTER f .PINCH 3).1 = .FOCUS) ∧
     (gestureReducer .SCATTER .null .PINCH 3).2 = .idx 0 ∧
     (∀ v, (gestureReducer .SCATTER (.idx v) .PINCH 3).2 = .idx ((v + 1) % 3)) ∧
     (∀ f, gestureReducer .TREE f .PINCH 3 = (.TREE, f)) ∧
     (∀ f, gestureReducer .FOCUS f .PINCH 3 = (.FOCUS, f)) ∧
     (∀ f, gestureReducer .FOCUS (gestureReducer .SCATTER f .PINCH 3).2 .PINCH 3 =
       (.FOCUS, (gestureReducer .SCATTER f .PINCH 3).2))) :=
  ⟨by decide, pinch_transition 3 (by decide)⟩

/-- React state of the App component, plus the `layouts` value that the
`Experience` component derives from `photos` via `useMemo` (kept abstract:
its only relevant property for the gesture handler is that it is a separate
piece of state that the handler never touches). -/
structure AppModel (α : Type) where
  appState : AppState
  currentGesture : GestureType
  handPos : ℚ × ℚ
  photos : List String
  focusedPhotoIndex : FocusVal
  layouts : α

/-- The `handleGestureDetected` callback of the App component: stores the
gesture in `currentGesture`, the hand coordinates in `handPositionRef`, and
runs the state-machine reducer (with its focus-index side effects). -/
def handleGestureDetected {α : Type} (s : AppModel α) (gesture : GestureType)
    (handX handY : ℚ) : AppModel α :=
  let r := gestureReducer s.appState s.focusedPhotoIndex gesture s.photos.length
  { s with currentGesture := gesture, handPos := (handX, handY),
           appState := r.1, focusedPhotoIndex := r.2 }

/-- The filter in `handleRemovePhoto`:
`photos.filter((_, i) => i !== focusedPhotoIndex)`, embedded by enumerating
the list with its indices. -/
def filterIndexNe (l : List String) (j : ℕ) : List String :=
  (l.enum.filter (fun p => p.1 != j)).map Prod.snd

/-- The `handleRemovePhoto` callback of the App component.  `none` models a
thrown TypeError: when `focusedPhotoIndex` is a number that is not a valid
index (or `NaN`), `photos[focusedPhotoIndex]` is `undefined` and
`.startsWith('blob:')` throws.  For a valid index the `startsWith` test and
`URL.revokeObjectURL` have no effect on the modelled state; the handler then
filters out the focused photo, nulls the focus index and moves to SCATTER.
When the focus index is `null` the handler does nothing. -/
def handleRemovePhoto (photos : List String) (focus : FocusVal) (st : AppState) :
    Option (List String × FocusVal × AppState) :=
  match focus with
  | .null => some (photos, .null, st)
  | .idx i =>
      if i < photos.length then some (filterIndexNe photos i, .null, .SCATTER)
      else none
  | .nan => none

/-- The `DEFAULT_PHOTOS` placeholder list of the App component. -/
def DEFAULT_PHOTOS : List String :=
  ["https://picsum.photos/400/600", "https://picsum.photos/400/400",
   "https://picsum.photos/500/400", "https://picsum.photos/400/500"]

/-- Initial React state of the App component. -/
def initialState : AppModel Unit :=
  { appState := .TREE, currentGesture := .NONE, handPos := (0, 0),
    photos := DEFAULT_PHOTOS, focusedPhotoIndex := .null, layouts := () }

/-- External events that mutate the App component's state: a classified
gesture callback, a photo upload (`handlePhotoUpload` appends the new URL),
and a click on the remove button (`handleRemovePhoto`). -/
inductive Event
  | gestureEvent (g : GestureType) (x y : ℚ)
  | uploadPhoto (url : String)
  | removeFocusedPhoto

/-- One state transition of the application.  A thrown `handleRemovePhoto`
leaves the React state unchanged (none of its setters run before the
`startsWith` access that throws). -/
def appStep (s : AppModel Unit) : Event → AppModel Unit
  | .gestureEvent g x y => handleGestureDetected s g x y
  | .uploadPhoto url => { s with photos := s.photos ++ [url] }
  | .removeFocusedPhoto =>
      match handleRemovePhoto s.photos s.focusedPhotoIndex s.appState with
      | some (p, f, st) => { s with photos := p, focusedPhotoIndex := f, appState := st }
      | none => s

/-- States reachable from the initial state by any sequence of events. -/
inductive Reachable : AppModel Unit → Prop
  | init : Reachable initialState
  | step {s : AppModel Unit} (e : Event) : Reachable s → Reachable (appStep s e)

/-- The focus-index invariant that actually holds in the code: the focus
index is null whenever the display state is SCATTER (the only transitions
into SCATTER null it), and consequently the only non-null value the PINCH
branch can ever produce is index 0. -/
def FocusInv (s : AppModel Unit) : Prop :=
  (s.appState = .SCATTER → s.focusedPhotoIndex = .null) ∧
  (s.focusedPhotoIndex = .null ∨ s.focusedPhotoIndex = .idx 0)

theorem gestureReducer_focusInv (prev : AppState) (focus : FocusVal)
    (g : GestureType) (n : ℕ) (h1 : prev = .SCATTER → focus = .null) :
    ((gestureReducer prev focus g n).1 = .SCATTER →
      (gestureReducer prev focus g n).2 = .null) ∧
    ((focus = .null ∨ focus = .idx 0) →
      ((gestureReducer prev focus g n).2 = .null ∨
        (gestureReducer prev focus g n).2 = .idx 0)) := by
  cases g <;> cases prev <;> simp_all [gestureReducer, pinchNextFocus]

theorem appStep_focusInv (s : AppModel Unit) (e : Event) (h : FocusInv s) :
    FocusInv (appStep s e) := by
  obtain ⟨h1, h2⟩ := h
  cases e with
  | gestureEvent g x y =>
      have hr := gestureReducer_focusInv s.appState s.focusedPhotoIndex g
        s.photos.length h1
      exact ⟨hr.1, hr.2 h2⟩
  | uploadPhoto url => exact ⟨h1, h2⟩
  | removeFocusedPhoto =>
      cases hf : s.focusedPhotoIndex with
      | null =>
          simp only [appStep, hf, handleRemovePhoto]
          exact ⟨fun _ => rfl, Or.inl rfl⟩
      | idx i =>
          by_cases hi : i < s.photos.length
          · simp only [appStep, hf, handleRemovePhoto, if_pos hi]
            exact ⟨fun _ => rfl, Or.inl rfl⟩
          · simp only [appStep, hf, handleRemovePhoto, if_neg hi]
            exact ⟨h1, h2⟩
      | nan =>
          simp only [appStep, hf, handleRemovePhoto]
          exact ⟨h1, h2⟩

theorem reachable_focusInv (s : AppModel Unit) (h : Reachable s) : FocusInv s := by
  induction h with
  | init => exact ⟨(fun hs => nomatch hs), Or.inl rfl⟩
  | step e _ ih => exact appStep_focusInv _ e ih

/-- C2 (amended): in every reachable state the focus index is null or 0
(hence a valid index into the photo collection whenever that collection is
nonempty), and it is null whenever the display state is SCATTER.  The OPEN
transition out of a non-SCATTER state clears the focus index, but the FIST
transition to TREE leaves the focus index unchanged, so a non-null focus
index can survive leaving FOCUS. -/
theorem reachable_focus_invariant (s : AppModel Unit) (h : Reachable s) :
    (s.focusedPhotoIndex = .null ∨ s.focusedPhotoIndex = .idx 0) ∧
    (s.appState = .SCATTER → s.focusedPhotoIndex = .null) ∧
    (∀ v, s.focusedPhotoIndex = .idx v → 0 < s.photos.length →
      v < s.photos.length) ∧
    (∀ p f n, p ≠ .SCATTER → gestureReducer p f .OPEN n = (.SCATTER, .null)) ∧
    (∀ p f n, (gestureReducer p f .FIST n).2 = f) := by
  obtain ⟨h1, h2⟩ := reachable_focusInv s h
  refine ⟨h2, h1, ?_, ?_, ?_⟩
  · intro v hv hlen
    rcases h2 with h0 | h0 <;> rw [hv] at h0
    · exact absurd h0 (by simp)
    · have : v = 0 := by injection h0
      omega
  · intro p f n hp
    cases p <;> simp_all [gestureReducer]
  · intro p f n
    cases p <;> simp [gestureReducer]

/-- C2 (witness): the amended invariant instantiated at the initial state. -/
theorem reachable_focus_invariant_witness :
    (initialState.focusedPhotoIndex = .null ∨
      initialState.focusedPhotoIndex = .idx 0) ∧
    (initialState.appState = .SCATTER → initialState.focusedPhotoIndex = .null) ∧
    (∀ v, initialState.focusedPhotoIndex = .idx v → 0 < initialState.photos.length →
      v < initialState.photos.length) ∧
    (∀ p f n, p ≠ .SCATTER → gestureReducer p f .OPEN n = (.SCATTER, .null)) ∧
    (∀ p f n, (gestureReducer p f .FIST n).2 = f) :=
  reachable_focus_invariant initialState Reachable.init

/-- C2 (counterexample): the reachable state obtained from the initial state
by the gesture sequence OPEN, PINCH, FIST is in display state TREE while its
focus index is still 0 (non-null): the FIST transition out of FOCUS does not
clear the focus index, refuting the claimed invariant that the focus index is
non-null only while the display state is FOCUS. -/
theorem fist_does_not_clear_focus_cex :
    Reachable (appStep (appStep (appStep initialState (.gestureEvent .OPEN 0 0))
        (.gestureEvent .PINCH 0 0)) (.gestureEvent .FIST 0 0)) ∧
    (appStep (appStep (appStep initialState (.gestureEvent .OPEN 0 0))
        (.gestureEvent .PINCH 0 0)) (.gestureEvent .FIST 0 0)).appState = .TREE ∧
    (appStep (appStep (appStep initialState (.gestureEvent .OPEN 0 0))
        (.gestureEvent .PINCH 0 0)) (.gestureEvent .FIST 0 0)).focusedPhotoIndex =
      .idx 0 :=
  ⟨Reachable.step _ (Reachable.step _ (Reachable.step _ Reachable.init)),
   rfl, rfl⟩

theorem enumFrom_filter_ne_map (l : List String) (k j : ℕ) :
    ((List.enumFrom k l).filter (fun p => p.1 != j)).map Prod.snd =
      if j < k then l else l.eraseIdx (j - k) := by
  induction l generalizing k with
  | nil => simp
  | cons a as ih =>
      simp only [List.enumFrom, List.filter_cons]
      by_cases hkj : k = j
      · have hb : ((k, a).1 != j) = false := by simp [hkj]
        rw [hb]
        simp only [Bool.false_eq_true, if_false]
        rw [ih (k + 1)]
        have h1 : ¬ j < k := by omega
        have h2 : j < k + 1 := by omega
        rw [if_neg h1, if_pos h2]
        have h3 : j - k = 0 := by omega
        rw [h3]
        rfl
      · have hb : ((k, a).1 != j) = true := bne_iff_ne.mpr hkj
        rw [hb]
        simp only [if_true, List.map_cons]
        rw [ih (k + 1)]
        by_cases hlt : j < k
        · have h' : j < k + 1 := by omega
          rw [if_pos hlt, if_pos h']
        · have hgt : k < j := by omega
          have h1 : ¬ j < k := by omega
          have h2 : ¬ j < k + 1 := by omega
          rw [if_neg h1, if_neg h2]
          have h3 : j - k = (j - (k + 1)) + 1 := by omega
          rw [h3]
          rfl

/-- The index filter of `handleRemovePhoto` removes exactly the element at
the focused index. -/
theorem filterIndexNe_eq_eraseIdx (l : List String) (j : ℕ) :
    filterIndexNe l j = l.eraseIdx j := by
  show ((List.enumFrom 0 l).filter (fun p => p.1 != j)).map Prod.snd = _
  rw [enumFrom_filter_ne_map]
  simp

/-- C8: with a non-null focus index that refers to an existing photo, the
remove-photo handler deletes exactly that photo, nulls the focus index and
moves the display state to SCATTER, without throwing; with a null focus index
it is a no-op that does not throw, leaving photos, focus index and display
state unchanged. -/
theorem handleRemovePhoto_spec (photos : List String) (f : FocusVal) (st : AppState) :
    (f = .null → handleRemovePhoto photos f st = some (photos, .null, st)) ∧
    (∀ i, f = .idx i → i < photos.length →
      handleRemovePhoto photos f st = some (photos.eraseIdx i, .null, .SCATTER)) := by
  constructor
  · rintro rfl; rfl
  · rintro i rfl hi
    simp only [handleRemovePhoto, if_pos hi, filterIndexNe_eq_eraseIdx]

/-- C8 (witness): removing the focused photo at index 1 from a 3-photo
collection yields the collection without that photo, in SCATTER with null
focus; removal with null focus is a no-op. -/
theorem handleRemovePhoto_spec_witness :
    (1 < (["a", "b", "c"] : List String).length) ∧
    handleRemovePhoto ["a", "b", "c"] (.idx 1) .FOCUS =
      some ((["a", "b", "c"] : List String).eraseIdx 1, .null, .SCATTER) ∧
    handleRemovePhoto ["a", "b", "c"] .null .FOCUS = some (["a", "b", "c"], .null, .FOCUS) :=
  ⟨by decide,
   (handleRemovePhoto_spec ["a", "b", "c"] (.idx 1) .FOCUS).2 1 rfl (by decide),
   (handleRemovePhoto_spec ["a", "b", "c"] .null .FOCUS).1 rfl⟩

/-- C8 (counterexample): a non-null focus index that does not refer to an
existing photo — reachable, since PINCH with zero photos sets the focus index
to 0 — makes the removal handler throw (`photos[0]` is `undefined`, so
`.startsWith` raises a TypeError, modelled as `none`) instead of performing
the claimed deletion. -/
theorem handleRemovePhoto_dangling_throws_cex :
    FocusVal.idx 0 ≠ FocusVal.null ∧
    handleRemovePhoto [] (.idx 0) .FOCUS = none :=
  ⟨by decide, rfl⟩

/-- C10: processing a gesture sample mutates only the display state, focus
index, current gesture and hand position: the photo collection and the stored
layouts are unchanged, and therefore any layout computed as a function of the
photos (the `useMemo` keyed on `[photos]` in `Experience`) is also
unchanged. -/
theorem gesture_preserves_photos_and_layouts {α β : Type} (s : AppModel α)
    (g : GestureType) (x y : ℚ) (layoutOf : List String → β) :
    (handleGestureDetected s g x y).photos = s.photos ∧
    (handleGestureDetected s g x y).layouts = s.layouts ∧
    layoutOf (handleGestureDetected s g x y).photos = layoutOf s.photos :=
  ⟨rfl, rfl, rfl⟩

/-- A hand landmark as delivered by the detector: normalized image
coordinates (the classifier in `HandManager.tsx` only reads `x` and `y`).
Coordinates are embedded as exact rationals. -/
structure Landmark where
  x : ℚ
  y : ℚ
deriving DecidableEq, Repr

/-- The `isFingerOpen` helper inside `detectGesture` (HandManager.tsx):
a finger is open iff its tip's y coordinate is strictly less than its PIP
joint's y coordinate (image y increases downwards). -/
def isFingerOpen (landmarks : Fin 21 → Landmark) (tipIdx pipIdx : Fin 21) : Bool :=
  decide ((landmarks tipIdx).y < (landmarks pipIdx).y)

/-- Squared distance between thumb tip (landmark 4) and index tip (landmark
8).  The source computes `Math.hypot(dx, dy)` and compares it with `0.05`;
since both sides are nonnegative, `hypot dx dy < 0.05` holds iff
`dx^2 + dy^2 < 0.05^2`, which is the exact rational comparison used here. -/
def pinchDistanceSq (landmarks : Fin 21 → Landmark) : ℚ :=
  ((landmarks 4).x - (landmarks 8).x) ^ 2 + ((landmarks 4).y - (landmarks 8).y) ^ 2

/-- The `detectGesture` classifier of HandManager.tsx, with the pinch
comparison carried out on squared distances (see `pinchDistanceSq`). -/
def detectGesture (landmarks : Fin 21 → Landmark) : GestureType :=
  let indexOpen := isFingerOpen landmarks 8 6
  let middleOpen := isFingerOpen landmarks 12 10
  let ringOpen := isFingerOpen landmarks 16 14
  let pinkyOpen := isFingerOpen landmarks 20 18
  if !indexOpen && !middleOpen && !ringOpen && !pinkyOpen then .FIST
  else if pinchDistanceSq landmarks < (5 / 100) ^ 2 then .PINCH
  else if (indexOpen && middleOpen && ringOpen) || (middleOpen && ringOpen && pinkyOpen)
    then .OPEN
  else .NONE

/-- C6: the classifier evaluates its rules in priority order with the first
match winning: FIST when none of index/middle/ring/pinky is open; otherwise
PINCH when the thumb-index distance is below 0.05; otherwise OPEN when
(index, middle, ring) or (middle, ring, pinky) are all open; otherwise
NONE. -/
theorem detectGesture_priority (lm : Fin 21 → Landmark) :
    (isFingerOpen lm 8 6 = false → isFingerOpen lm 12 10 = false →
      isFingerOpen lm 16 14 = false → isFingerOpen lm 20 18 = false →
      detectGesture lm = .FIST) ∧
    (¬(isFingerOpen lm 8 6 = false ∧ isFingerOpen lm 12 10 = false ∧
        isFingerOpen lm 16 14 = false ∧ isFingerOpen lm 20 18 = false) →
      pinchDistanceSq lm < (5 / 100) ^ 2 → detectGesture lm = .PINCH) ∧
    (¬(isFingerOpen lm 8 6 = false ∧ isFingerOpen lm 12 10 = false ∧
        isFingerOpen lm 16 14 = false ∧ isFingerOpen lm 20 18 = false) →
      ¬(pinchDistanceSq lm < (5 / 100) ^ 2) →
      ((isFingerOpen lm 8 6 = true ∧ isFingerOpen lm 12 10 = true ∧
          isFingerOpen lm 16 14 = true) ∨
        (isFingerOpen lm 12 10 = true ∧ isFingerOpen lm 16 14 = true ∧
          isFingerOpen lm 20 18 = true)) →
      detectGesture lm = .OPEN) ∧
    (¬(isFingerOpen lm 8 6 = false ∧ isFingerOpen lm 12 10 = false ∧
        isFingerOpen lm 16 14 = false ∧ isFingerOpen lm 20 18 = false) →
      ¬(pinchDistanceSq lm < (5 / 100) ^ 2) →
      ¬((isFingerOpen lm 8 6 = true ∧ isFingerOpen lm 12 10 = true ∧
          isFingerOpen lm 16 14 = true) ∨
        (isFingerOpen lm 12 10 = true ∧ isFingerOpen lm 16 14 = true ∧
          isFingerOpen lm 20 18 = true)) →
      detectGesture lm = .NONE) := by
  unfold detectGesture
  simp only [Bool.and_eq_true, Bool.not_eq_true', Bool.or_eq_true]
  refine ⟨?_, ?_, ?_, ?_⟩
  · intro a b c d
    rw [if_pos ⟨⟨⟨a, b⟩, c⟩, d⟩]
  · intro h1 h2
    rw [if_neg (by tauto), if_pos h2]
  · intro h1 h2 h3
    rw [if_neg (by tauto), if_neg h2, if_pos (by tauto)]
  · intro h1 h2 h3
    rw [if_neg (by tauto), if_neg h2, if_neg (by tauto)]

/-- A hand with the four fingertips above their PIP joints and the thumb tip
far from the index tip (all x coordinates 0, tips at y = 1/4, all other
landmarks at y = 3/4). -/
def openHand : Fin 21 → Landmark := fun i =>
  if i.val = 8 ∨ i.val = 12 ∨ i.val = 16 ∨ i.val = 20 then ⟨0, 1 / 4⟩ else ⟨0, 3 / 4⟩

/-- A hand with the four fingertips below their PIP joints (tips at y = 3/4,
all other landmarks at y = 1/4). -/
def fistHand : Fin 21 → Landmark := fun i =>
  if i.val = 8 ∨ i.val = 12 ∨ i.val = 16 ∨ i.val = 20 then ⟨0, 3 / 4⟩ else ⟨0, 1 / 4⟩

/-- An otherwise-open hand whose thumb tip coincides with the index tip
(distance 0, below the 0.05 pinch threshold). -/
def pinchHand : Fin 21 → Landmark := fun i =>
  if i.val = 4 ∨ i.val = 8 ∨ i.val = 12 ∨ i.val = 16 ∨ i.val = 20 then ⟨0, 1 / 4⟩
  else ⟨0, 3 / 4⟩

/-- C6 (witness): an all-closed hand is labeled FIST, an otherwise-open hand
with thumb-index distance below the threshold is labeled PINCH (priority over
OPEN), and an all-four-fingers-open hand with the thumb away from the index
tip is labeled OPEN. -/
theorem detectGesture_priority_witness :
    detectGesture fistHand = .FIST ∧
    detectGesture pinchHand = .PINCH ∧
    detectGesture openHand = .OPEN :=
  ⟨(detectGesture_priority fistHand).1
      (by norm_num [isFingerOpen, fistHand, show ((6 : Fin 21) : ℕ) = 6 from rfl,
        show ((8 : Fin 21) : ℕ) = 8 from rfl])
      (by norm_num [isFingerOpen, fistHand, show ((10 : Fin 21) : ℕ) = 10 from rfl,
        show ((12 : Fin 21) : ℕ) = 12 from rfl])
      (by norm_num [isFingerOpen, fistHand, show ((14 : Fin 21) : ℕ) = 14 from rfl,
        show ((16 : Fin 21) : ℕ) = 16 from rfl])
      (by norm_num [isFingerOpen, fistHand, show ((18 : Fin 21) : ℕ) = 18 from rfl,
        show ((20 : Fin 21) : ℕ) = 20 from rfl]),
   (detectGesture_priority pinchHand).2.1
      (by norm_num [isFingerOpen, pinchHand,
        show ((6 : Fin 21) : ℕ) = 6 from rfl, show ((8 : Fin 21) : ℕ) = 8 from rfl,
        show ((10 : Fin 21) : ℕ) = 10 from rfl, show ((12 : Fin 21) : ℕ) = 12 from rfl,
        show ((14 : Fin 21) : ℕ) = 14 from rfl, show ((16 : Fin 21) : ℕ) = 16 from rfl,
        show ((18 : Fin 21) : ℕ) = 18 from rfl, show ((20 : Fin 21) : ℕ) = 20 from rfl])
      (by norm_num [pinchDistanceSq, pinchHand,
        show ((4 : Fin 21) : ℕ) = 4 from rfl, show ((8 : Fin 21) : ℕ) = 8 from rfl]),
   (detectGesture_priority openHand).2.2.1
      (by norm_num [isFingerOpen, openHand,
        show ((6 : Fin 21) : ℕ) = 6 from rfl, show ((8 : Fin 21) : ℕ) = 8 from rfl,
        show ((10 : Fin 21) : ℕ) = 10 from rfl, show ((12 : Fin 21) : ℕ) = 12 from rfl,
        show ((14 : Fin 21) : ℕ) = 14 from rfl, show ((16 : Fin 21) : ℕ) = 16 from rfl,
        show ((18 : Fin 21) : ℕ) = 18 from rfl, show ((20 : Fin 21) : ℕ) = 20 from rfl])
      (by norm_num [pinchDistanceSq, openHand,
        show ((4 : Fin 21) : ℕ) = 4 from rfl, show ((8 : Fin 21) : ℕ) = 8 from rfl])
      (Or.inl (by norm_num [isFingerOpen, openHand,
        show ((6 : Fin 21) : ℕ) = 6 from rfl, show ((8 : Fin 21) : ℕ) = 8 from rfl,
        show ((10 : Fin 21) : ℕ) = 10 from rfl, show ((12 : Fin 21) : ℕ) = 12 from rfl,
        show ((14 : Fin 21) : ℕ) = 14 from rfl,
        show ((16 : Fin 21) : ℕ) = 16 from rfl]))⟩

/-- The `onResults` callback of HandManager.tsx, as a pure function of the
detection payload: `some lm` models a frame whose `multiHandLandmarks` is
nonempty (with `lm` its first entry), `none` a frame with no detected hand.
The result is the `(gesture, x, y)` triple passed to `onGestureDetected`. -/
def onResults (results : Option (Fin 21 → Landmark)) : GestureType × ℚ × ℚ :=
  match results with
  | some landmarks =>
      let palmX := ((landmarks 0).x + (landmarks 9).x) / 2
      let palmY := ((landmarks 0).y + (landmarks 9).y) / 2
      (detectGesture landmarks, (0.5 - palmX) * 4, (0.5 - palmY) * 2)
  | none => (.NONE, 0, 0)

/-- C7: for a frame with a detected hand, the reported hand position is
((0.5 − palmX) · 4, (0.5 − palmY) · 2) where (palmX, palmY) is the midpoint
of landmarks 0 and 9, and the reported gesture is the classifier's output;
for a frame with no detected hand, the report is gesture NONE at (0, 0). -/
theorem onResults_spec :
    (∀ lm : Fin 21 → Landmark,
      onResults (some lm) =
        (detectGesture lm,
         (1 / 2 - ((lm 0).x + (lm 9).x) / 2) * 4,
         (1 / 2 - ((lm 0).y + (lm 9).y) / 2) * 2)) ∧
    onResults none = (.NONE, 0, 0) := by
  constructor
  · intro lm
    show (detectGesture lm, ((0.5 : ℚ) - ((lm 0).x + (lm 9).x) / 2) * 4,
      ((0.5 : ℚ) - ((lm 0).y + (lm 9).y) / 2) * 2) = _
    norm_num
  · rfl

/-- The golden angle `Math.PI * (3 - Math.sqrt(5))` of the layout `useMemo`
in Experience.tsx. -/
noncomputable def goldenAngle : ℝ := Real.pi * (3 - Real.sqrt 5)

/-- The `Math.random()` results consumed for one ornament's geometry in the
layout `useMemo` of Experience.tsx (the shape/color draws are irrelevant to
the geometric bounds and are omitted). -/
structure OrnamentDraws where
  uSurface : ℝ
  uRScale : ℝ
  uScatterR : ℝ
  uScatterTheta : ℝ
  uScatterPhi : ℝ

/-- A `Math.random()` result: a value in [0, 1). -/
def UnitDraw (u : ℝ) : Prop := 0 ≤ u ∧ u < 1

/-- Ornament tree height `yTree = CONFIG.TREE_HEIGHT * (t - 0.5)` with
`t = i / count`. -/
noncomputable def yTreeOrnament (H : ℝ) (i count : ℕ) : ℝ :=
  H * ((i : ℝ) / (count : ℝ) - 0.5)

/-- `normalizedY = (yTree + CONFIG.TREE_HEIGHT / 2) / CONFIG.TREE_HEIGHT`. -/
noncomputable def normalizedY (H : ℝ) (i count : ℕ) : ℝ :=
  (yTreeOrnament H i count + H / 2) / H

/-- `maxRadiusAtY = CONFIG.TREE_RADIUS_BOTTOM * Math.pow(1 - normalizedY, 0.9)
+ 0.2`, the configured max radius of the tree cone at a given height. -/
noncomputable def maxRadiusAtY (base H : ℝ) (i count : ℕ) : ℝ :=
  base * (1 - normalizedY H i count) ^ (0.9 : ℝ) + 0.2

/-- The radius scale drawn for one ornament: surface placement
(`Math.random() > 0.25`) uses scale `0.9 + Math.random() * 0.25`, interior
placement uses `Math.random() * 0.8`. -/
noncomputable def ornamentRScale (d : OrnamentDraws) : ℝ :=
  if d.uSurface > 0.25 then 0.9 + d.uRScale * 0.25 else d.uRScale * 0.8

/-- Tree-layout position of ornament `i` of `count`:
`(cos θ * rCurrent, yTree, sin θ * rCurrent)` with `θ = i * goldenAngle` and
`rCurrent = maxRadiusAtY * rScale`. -/
noncomputable def ornamentTreePos (base H : ℝ) (i count : ℕ) (d : OrnamentDraws) :
    ℝ × ℝ × ℝ :=
  (Real.cos ((i : ℝ) * goldenAngle) * (maxRadiusAtY base H i count * ornamentRScale d),
   yTreeOrnament H i count,
   Real.sin ((i : ℝ) * goldenAngle) * (maxRadiusAtY base H i count * ornamentRScale d))

/-- `Math.cbrt` on a nonnegative argument, as the real 1/3 power. -/
noncomputable def cbrt (u : ℝ) : ℝ := u ^ ((1 : ℝ) / 3)

/-- Scatter-layout position of an ornament:
`rScatter = CONFIG.SCATTER_RADIUS * Math.cbrt(random)`,
`thetaScatter = random * 2π`, `phiScatter = arccos(2 * random - 1)`, and the
spherical-to-Cartesian conversion used in the source. -/
noncomputable def ornamentScatterPos (R : ℝ) (d : OrnamentDraws) : ℝ × ℝ × ℝ :=
  (R * cbrt d.uScatterR * Real.sin (Real.arccos (2 * d.uScatterPhi - 1)) *
     Real.cos (d.uScatterTheta * (2 * Real.pi)),
   R * cbrt d.uScatterR * Real.sin (Real.arccos (2 * d.uScatterPhi - 1)) *
     Real.sin (d.uScatterTheta * (2 * Real.pi)),
   R * cbrt d.uScatterR * Real.cos (Real.arccos (2 * d.uScatterPhi - 1)))

/-- Euclidean norm of a 3D point. -/
noncomputable def norm3 (p : ℝ × ℝ × ℝ) : ℝ :=
  Real.sqrt (p.1 ^ 2 + p.2.1 ^ 2 + p.2.2 ^ 2)

/-- Horizontal distance of a 3D point from the vertical axis (its radius at
its height). -/
noncomputable def horizontalRadius (p : ℝ × ℝ × ℝ) : ℝ :=
  Real.sqrt (p.1 ^ 2 + p.2.2 ^ 2)

/-- C9 (amended): for every ornament and all random draws in [0, 1), the
scatter-layout point lies within the configured scatter radius of the origin,
and the tree-layout point's horizontal radius at its height is at most
1.15 times the configured max radius at that height (surface ornaments are
deliberately drawn with radius scale up to 1.15). -/
theorem ornament_layout_bounds (base H R : ℝ) (i count : ℕ) (d : OrnamentDraws)
    (hbase : 0 ≤ base) (hH : 0 < H) (hR : 0 ≤ R) (hic : i < count)
    (hu1 : UnitDraw d.uSurface) (hu2 : UnitDraw d.uRScale)
    (hu3 : UnitDraw d.uScatterR) (hu4 : UnitDraw d.uScatterTheta)
    (hu5 : UnitDraw d.uScatterPhi) :
    norm3 (ornamentScatterPos R d) ≤ R ∧
    horizontalRadius (ornamentTreePos base H i count d) ≤
      1.15 * maxRadiusAtY base H i count := by
  constructor
  · have hc0 : 0 ≤ cbrt d.uScatterR := Real.rpow_nonneg hu3.1 _
    have hc1 : cbrt d.uScatterR ≤ 1 :=
      Real.rpow_le_one hu3.1 (le_of_lt hu3.2) (by norm_num)
    have hr0 : 0 ≤ R * cbrt d.uScatterR := mul_nonneg hR hc0
    have hkey : norm3 (ornamentScatterPos R d) = R * cbrt d.uScatterR := by
      unfold norm3 ornamentScatterPos
      have h1 := Real.sin_sq_add_cos_sq (d.uScatterTheta * (2 * Real.pi))
      have h2 := Real.sin_sq_add_cos_sq (Real.arccos (2 * d.uScatterPhi - 1))
      have hsum :
          (R * cbrt d.uScatterR * Real.sin (Real.arccos (2 * d.uScatterPhi - 1)) *
              Real.cos (d.uScatterTheta * (2 * Real.pi))) ^ 2 +
            (R * cbrt d.uScatterR * Real.sin (Real.arccos (2 * d.uScatterPhi - 1)) *
              Real.sin (d.uScatterTheta * (2 * Real.pi))) ^ 2 +
            (R * cbrt d.uScatterR * Real.cos (Real.arccos (2 * d.uScatterPhi - 1))) ^ 2 =
            (R * cbrt d.uScatterR) ^ 2 := by
        linear_combination
          ((R * cbrt d.uScatterR) ^ 2 *
            Real.sin (Real.arccos (2 * d.uScatterPhi - 1)) ^ 2) * h1 +
          (R * cbrt d.uScatterR) ^ 2 * h2
      rw [hsum, Real.sqrt_sq hr0]
    rw [hkey]
    calc R * cbrt d.uScatterR ≤ R * 1 := mul_le_mul_of_nonneg_left hc1 hR
      _ = R := mul_one R
  · have hcount : (0 : ℝ) < (count : ℝ) := by
      have : 0 < count := by omega
      exact_mod_cast this
    have ht0 : 0 ≤ (i : ℝ) / (count : ℝ) :=
      div_nonneg (Nat.cast_nonneg i) (le_of_lt hcount)
    have ht1 : (i : ℝ) / (count : ℝ) < 1 := by
      rw [div_lt_one hcount]
      exact_mod_cast hic
    have hnY : normalizedY H i count = (i : ℝ) / (count : ℝ) := by
      unfold normalizedY yTreeOrnament
      field_simp
      ring
    have hmax0 : 0 ≤ maxRadiusAtY base H i count := by
      unfold maxRadiusAtY
      have hp : 0 ≤ (1 - normalizedY H i count) ^ (0.9 : ℝ) := by
        apply Real.rpow_nonneg
        rw [hnY]
        linarith
      have := mul_nonneg hbase hp
      linarith
    have hs0 : 0 ≤ ornamentRScale d := by
      unfold ornamentRScale
      split
      · nlinarith [hu2.1]
      · nlinarith [hu2.1]
    have hs1 : ornamentRScale d ≤ 1.15 := by
      unfold ornamentRScale
      split
      · nlinarith [hu2.2]
      · nlinarith [hu2.1, hu2.2]
    have hm0 : 0 ≤ maxRadiusAtY base H i count * ornamentRScale d :=
      mul_nonneg hmax0 hs0
    have hkey : horizontalRadius (ornamentTreePos base H i count d) =
        maxRadiusAtY base H i count * ornamentRScale d := by
      unfold horizontalRadius ornamentTreePos
      have h1 := Real.sin_sq_add_cos_sq ((i : ℝ) * goldenAngle)
      have hsum :
          (Real.cos ((i : ℝ) * goldenAngle) *
              (maxRadiusAtY base H i count * ornamentRScale d)) ^ 2 +
            (Real.sin ((i : ℝ) * goldenAngle) *
              (maxRadiusAtY base H i count * ornamentRScale d)) ^ 2 =
            (maxRadiusAtY base H i count * ornamentRScale d) ^ 2 := by
        linear_combination (maxRadiusAtY base H i count * ornamentRScale d) ^ 2 * h1
      rw [hsum, Real.sqrt_sq hm0]
    rw [hkey]
    calc maxRadiusAtY base H i count * ornamentRScale d ≤
          maxRadiusAtY base H i count * 1.15 := mul_le_mul_of_nonneg_left hs1 hmax0
      _ = 1.15 * maxRadiusAtY base H i count := mul_comm _ _

/-- C9 (witness): the bounds instantiated at a concrete configuration
(base radius 3, tree height 8, scatter radius 10, 1200 ornaments, ornament 0)
with all draws equal to 0. -/
theorem ornament_layout_bounds_witness :
    ((0 : ℝ) ≤ 3 ∧ (0 : ℝ) < 8 ∧ (0 : ℝ) ≤ 10 ∧ 0 < 1200 ∧ UnitDraw (0 : ℝ)) ∧
    (norm3 (ornamentScatterPos 10 ⟨0, 0, 0, 0, 0⟩) ≤ 10 ∧
      horizontalRadius (ornamentTreePos 3 8 0 1200 ⟨0, 0, 0, 0, 0⟩) ≤
        1.15 * maxRadiusAtY 3 8 0 1200) :=
  ⟨⟨by norm_num, by norm_num, by norm_num, by norm_num, by norm_num [UnitDraw]⟩,
   ornament_layout_bounds 3 8 10 0 1200 ⟨0, 0, 0, 0, 0⟩ (by norm_num) (by norm_num)
     (by norm_num) (by norm_num) (by norm_num [UnitDraw]) (by norm_num [UnitDraw])
     (by norm_num [UnitDraw]) (by norm_num [UnitDraw]) (by norm_num [UnitDraw])⟩

/-- C9 (counterexample): at the concrete configuration (base radius 3, tree
height 8, 1200 ornaments), ornament 0 drawn on the surface branch
(`uSurface = 1/2 > 0.25`) with radius-scale draw `uRScale = 4/5` has radius
scale 1.1, so its tree-layout horizontal radius is 1.1 times the configured
max radius at its height — exceeding `maxRadiusAtY` by 0.32, far beyond any
floating-point epsilon.  (The excess is multiplicative, so such draws exceed
the claimed bound for every positive configuration.) -/
theorem tree_layout_exceeds_max_radius_cex :
    UnitDraw ((1 : ℝ) / 2) ∧ UnitDraw ((4 : ℝ) / 5) ∧ UnitDraw (0 : ℝ) ∧
    horizontalRadius (ornamentTreePos 3 8 0 1200 ⟨1 / 2, 4 / 5, 0, 0, 0⟩) >
      maxRadiusAtY 3 8 0 1200 + 1 / 4 := by
  refine ⟨by norm_num [UnitDraw], by norm_num [UnitDraw], by norm_num [UnitDraw], ?_⟩
  have hnY : normalizedY 8 0 1200 = 0 := by
    unfold normalizedY yTreeOrnament
    norm_num
  have hmax : maxRadiusAtY 3 8 0 1200 = 3.2 := by
    unfold maxRadiusAtY
    rw [hnY]
    norm_num [Real.one_rpow]
  have hscale : ornamentRScale ⟨1 / 2, 4 / 5, 0, 0, 0⟩ = 1.1 := by
    unfold ornamentRScale
    norm_num
  have hpos : ornamentTreePos 3 8 0 1200 ⟨1 / 2, 4 / 5, 0, 0, 0⟩ =
      (3.2 * 1.1, yTreeOrnament 8 0 1200, 0) := by
    unfold ornamentTreePos
    rw [hmax, hscale]
    norm_num [Real.cos_zero, Real.sin_zero]
  rw [hpos, hmax]
  unfold horizontalRadius
  have : ((3.2 : ℝ) * 1.1) ^ 2 + (0 : ℝ) ^ 2 = 3.52 ^ 2 := by norm_num
  rw [this, Real.sqrt_sq (by norm_num)]
  norm_num

end MerryChristmas
